import Mathlib

/-!
Verification of the instrumentation core of `graph-explorer`
(`src/instrument.py` together with its configuration `src/config.py`).

The development shallowly embeds:

* the configuration constants from `config.py`;
* the three metric-name resolvers
  (`_func_package_and_name`, `_func_package_and_name_thread`,
  `_func_package_class_name`);
* one invocation of a callable wrapped by each of the four decorators
  (`timer`, `timer_for_subclasses`, `counter`, `counter_for_subclasses`),
  as a state transformer over the module-level mutable state
  (the `_COUNTERS` dict and a chronological trace of metric events);
* the global reporting switch (`enable_stats`, `disable_stats`,
  `init_stats`) acting on the process-wide statsd connection defaults.

Python-specific conventions used by the embedding are documented on the
corresponding definitions.
-/

/- ## Configuration (`src/config.py`) -/

/-- `config.app_name` in `config.py`: the prefix for all metric names. -/
def app_name : String := "graph-explorer"

/-- Shape of `config.statsd_params` in `config.py`. -/
structure StatsdParams where
  host : String
  port : Int
  sample_rate : Int
deriving DecidableEq, Repr

/-- `config.statsd_params` in `config.py`. -/
def statsd_params : StatsdParams :=
  { host := "127.0.0.1", port := 8125, sample_rate := 1 }

/-- `APP_NAME = config.app_name` at the top of `instrument.py`. -/
def APP_NAME : String := app_name

/- ## Python data model -/

/-- A Python class object, as seen through the attributes the resolvers
read: its `__module__` and its `__name__`. -/
structure ClassDesc where
  module : String
  name : String
deriving DecidableEq, Repr

/-- Python 2 renders a (classic) class object as `module.name`; this is
what `"{0}".format(cls)` produces for the `fn.im_class` interpolation in
`_func_package_and_name` / `_func_package_and_name_thread`. -/
def pyClassStr (c : ClassDesc) : String :=
  c.module ++ "." ++ c.name

/-- A callable as seen through the attributes `instrument.py` reads:
`fn.__module__`, `fn.__name__`, and — exactly when
`str(fn.__class__) == "<type 'instancemethod'>"` in Python 2 —
`fn.im_class`.  `fnId` models the identity of the function object
(`id(fn)` / its code object), which is not readable from those naming
attributes: two distinct function objects may share `module` and
`name`. -/
structure FnDesc where
  fnId : Nat
  im_class : Option ClassDesc
  module : String
  name : String
deriving DecidableEq, Repr

/-- A Python object as seen through the single attribute chain
`_func_package_class_name` reads on a call argument:
`args[0].__class__` (with its `__module__` and `__name__`).  `objId`
models the object's identity, unread by the resolvers. -/
structure PyObject where
  objId : Nat
  cls : ClassDesc
deriving DecidableEq, Repr

/- ## Name resolvers (`instrument.py` lines 52-78) -/

/-- `_func_package_and_name(fn)` (lines 74-78): the plain-mode resolver.
The Python code branches on `str(fn.__class__) == "<type 'instancemethod'>"`,
which in Python 2 holds exactly when `fn` is an instancemethod carrying
`im_class`; the embedding branches on the presence of `im_class`. -/
def _func_package_and_name (fn : FnDesc) : String :=
  match fn.im_class with
  | some c => APP_NAME ++ "." ++ pyClassStr c ++ "." ++ fn.name
  | none => APP_NAME ++ "." ++ fn.module ++ "." ++ fn.name

/-- `_func_package_and_name_thread(fn)` (lines 52-56): the thread-aware
resolver.  `currentThreadName` models `threading.current_thread().name`,
the only attribute of the current thread the code reads. -/
def _func_package_and_name_thread (fn : FnDesc) (currentThreadName : String) : String :=
  match fn.im_class with
  | some c =>
      APP_NAME ++ "." ++ pyClassStr c ++ "." ++ fn.name ++ "." ++ currentThreadName
  | none =>
      APP_NAME ++ "." ++ fn.module ++ "." ++ fn.name ++ "." ++ currentThreadName

/-- `_func_package_class_name(fn, args)` (lines 58-72): the
subclass-aware resolver.  If `len(args) > 0` it uses the runtime class
of `args[0]` (the line `is_class = inspect.isclass(args[0])` computes a
value the source never uses, so it does not appear here); otherwise it
falls back to the callable's own `__module__` and `__name__`. -/
def _func_package_class_name (fn : FnDesc) (args : List PyObject) : String :=
  match args with
  | a :: _ =>
      APP_NAME ++ "." ++ a.cls.module ++ "." ++ a.cls.name ++ "." ++ fn.name
  | [] => APP_NAME ++ "." ++ fn.module ++ "." ++ fn.name

/- ## Spec-side name forms (§4.1 of the specification) -/

/-- Modelled from the spec: the "full hierarchical name" of subclass-aware
mode — app_name, the runtime class's module and name of the first
positional argument, then the callable's name. -/
def fullHierName (a : PyObject) (fn : FnDesc) : String :=
  app_name ++ "." ++ a.cls.module ++ "." ++ a.cls.name ++ "." ++ fn.name

/-- Modelled from the spec: the "fallback form" — plain-mode naming from
the callable's declared module and its own name. -/
def fallbackName (fn : FnDesc) : String :=
  app_name ++ "." ++ fn.module ++ "." ++ fn.name

/-- Modelled from the spec: a type's qualified name (its module path
followed by its name). -/
def qualifiedName (c : ClassDesc) : String :=
  c.module ++ "." ++ c.name

/-- Modelled from the spec (§4.1, plain mode): the enclosing scope is the
module path for a free function, or the owning type's qualified name for
a bound method. -/
def enclosingScope (fn : FnDesc) : String :=
  match fn.im_class with
  | some c => qualifiedName c
  | none => fn.module

/-- Modelled from the spec (§4.1, plain mode):
`{app_name}.{enclosing_scope}.{callable_name}`. -/
def spec_plain_name (fn : FnDesc) : String :=
  app_name ++ "." ++ enclosingScope fn ++ "." ++ fn.name

/- ## Module state and the metric-event trace -/

/-- Observable metric events, in the order the wrappers perform them:
handle construction (`statsd.Timer(...)` / `statsd.Counter(...)`),
`my_timer.start()`, `my_timer.stop()`, `my_counter += 1`, and entry into
the wrapped callable (`fn(*args, **kwargs)`), tagged by the callable's
identity. -/
inductive Ev where
  | timerCreate (name : String) (hid : Nat)
  | timerStart (hid : Nat)
  | timerStop (hid : Nat)
  | counterCreate (name : String) (hid : Nat)
  | counterIncr (hid : Nat)
  | invoke (fnId : Nat)
deriving DecidableEq, Repr

/-- The module-level mutable state of `instrument.py`: the `_COUNTERS`
dict (resolved name to counter handle), a supply of fresh handle
identities, and a chronological trace of metric events (newest last).
The `_TIMERS = dict()` at line 48 is declared but never read or written
by any function in the module, so it has no counterpart here. -/
structure StatsState where
  counters : List (String × Nat)
  nextHandleId : Nat
  trace : List Ev
deriving DecidableEq, Repr

/-- The state at interpreter start: empty `_COUNTERS`, nothing yet
created or emitted. -/
def initState : StatsState :=
  { counters := [], nextHandleId := 0, trace := [] }

/-- Possible failures of the statsd transport during one wrapped call.
`none` means the operation returns normally, `some e` that it raises
`e`.  The wrappers in `instrument.py` contain no `try`/`except` (resp.
`try`/`finally`) around these operations, so the embedding threads any
raised error to the wrapper's caller exactly where the Python call
would. -/
structure TransportFaults (E : Type) where
  timerCtorFault : Option E
  timerStartFault : Option E
  timerStopFault : Option E
  counterCtorFault : Option E
  counterIncrFault : Option E
deriving DecidableEq, Repr

/-- A transport that never fails (the happy path assumed by the
source). -/
def noFaults {E : Type} : TransportFaults E :=
  { timerCtorFault := none, timerStartFault := none, timerStopFault := none,
    counterCtorFault := none, counterIncrFault := none }

/- ## Invocation wrappers (`instrument.py` lines 80-156) -/

/-- The shared body of the two timer decorators, after the metric name
has been resolved to `func_info`: `my_timer = statsd.Timer(func_info)`,
`my_timer.start()`, `rval = fn(*args, **kwargs)`, `my_timer.stop()`,
`return rval` — straight-line code with no exception handling, so a
wrapped-call failure skips `stop()`, and a transport failure propagates
from the exact point it is raised. -/
def timerBody {E V : Type} (tf : TransportFaults E) (func_info : String) (fnId : Nat)
    (outcome : Except E V) (s : StatsState) : Except E V × StatsState :=
  match tf.timerCtorFault with
  | some e => (Except.error e, s)
  | none =>
    let hid := s.nextHandleId
    let s1 : StatsState :=
      { counters := s.counters, nextHandleId := hid + 1,
        trace := s.trace ++ [Ev.timerCreate func_info hid] }
    match tf.timerStartFault with
    | some e => (Except.error e, s1)
    | none =>
      let s2 : StatsState := { s1 with trace := s1.trace ++ [Ev.timerStart hid] }
      let s3 : StatsState := { s2 with trace := s2.trace ++ [Ev.invoke fnId] }
      match outcome with
      | Except.error e => (Except.error e, s3)
      | Except.ok v =>
        match tf.timerStopFault with
        | some e => (Except.error e, s3)
        | none => (Except.ok v, { s3 with trace := s3.trace ++ [Ev.timerStop hid] })

/-- One invocation of a callable wrapped by `timer` (lines 108-120):
the body with `func_info = _func_package_and_name(fn)`. -/
def timerCall {E V : Type} (tf : TransportFaults E) (fn : FnDesc)
    (outcome : Except E V) (s : StatsState) : Except E V × StatsState :=
  timerBody tf (_func_package_and_name fn) fn.fnId outcome s

/-- One invocation of a callable wrapped by `timer_for_subclasses`
(lines 80-106): the body with
`func_info = _func_package_class_name(fn, args)`. -/
def timerForSubclassesCall {E V : Type} (tf : TransportFaults E) (fn : FnDesc)
    (args : List PyObject) (outcome : Except E V) (s : StatsState) :
    Except E V × StatsState :=
  timerBody tf (_func_package_class_name fn args) fn.fnId outcome s

/-- The shared body of the two counter decorators, after the metric name
has been resolved to `func_info`: look `func_info` up in `_COUNTERS`
(`try ... except KeyError`), on a miss construct `statsd.Counter` and
insert it, then `my_counter += 1`, then `return fn(*args, **kwargs)`.
There is no exception handling around the transport operations. -/
def counterBody {E V : Type} (tf : TransportFaults E) (func_info : String) (fnId : Nat)
    (outcome : Except E V) (s : StatsState) : Except E V × StatsState :=
  match List.lookup func_info s.counters with
  | some hid =>
    match tf.counterIncrFault with
    | some e => (Except.error e, s)
    | none =>
      let s1 : StatsState := { s with trace := s.trace ++ [Ev.counterIncr hid] }
      let s2 : StatsState := { s1 with trace := s1.trace ++ [Ev.invoke fnId] }
      (outcome, s2)
  | none =>
    match tf.counterCtorFault with
    | some e => (Except.error e, s)
    | none =>
      let hid := s.nextHandleId
      let s1 : StatsState :=
        { counters := (func_info, hid) :: s.counters, nextHandleId := hid + 1,
          trace := s.trace ++ [Ev.counterCreate func_info hid] }
      match tf.counterIncrFault with
      | some e => (Except.error e, s1)
      | none =>
        let s2 : StatsState := { s1 with trace := s1.trace ++ [Ev.counterIncr hid] }
        let s3 : StatsState := { s2 with trace := s2.trace ++ [Ev.invoke fnId] }
        (outcome, s3)

/-- One invocation of a callable wrapped by `counter` (lines 143-156). -/
def counterCall {E V : Type} (tf : TransportFaults E) (fn : FnDesc)
    (outcome : Except E V) (s : StatsState) : Except E V × StatsState :=
  counterBody tf (_func_package_and_name fn) fn.fnId outcome s

/-- One invocation of a callable wrapped by `counter_for_subclasses`
(lines 123-140). -/
def counterForSubclassesCall {E V : Type} (tf : TransportFaults E) (fn : FnDesc)
    (args : List PyObject) (outcome : Except E V) (s : StatsState) :
    Except E V × StatsState :=
  counterBody tf (_func_package_class_name fn args) fn.fnId outcome s

/-- A sequence of invocations of the same wrapped callable: each entry of
`outcomes` is the behaviour of the wrapped callable on the corresponding
call; the state threads through. -/
def callSeq {E V : Type} (step : Except E V → StatsState → Except E V × StatsState) :
    List (Except E V) → StatsState → List (Except E V) × StatsState
  | [], s => ([], s)
  | o :: rest, s =>
    let r := step o s
    let rs := callSeq step rest r.2
    (r.1 :: rs.1, rs.2)

/- ## Global reporting switch (`instrument.py` lines 158-176) -/

/-- The process-wide statsd connection defaults that
`statsd.Connection.set_defaults` mutates. -/
structure ConnectionDefaults where
  host : String
  port : Int
  sample_rate : Int
  disabled : Bool
deriving DecidableEq, Repr

/-- `statsd.Connection.set_defaults(...)`: wholesale replacement of the
process-wide defaults, discarding the previous ones. -/
def set_defaults (host : String) (port sample_rate : Int) (disabled : Bool)
    (_ : ConnectionDefaults) : ConnectionDefaults :=
  { host := host, port := port, sample_rate := sample_rate, disabled := disabled }

/-- Python's `int(n)` applied to a value that is already an `int`
returns it unchanged; `enable_stats`/`disable_stats` apply it to
`config.statsd_params['port']` and `['sample_rate']`, which `config.py`
defines as int literals. -/
def pyIntOfInt (n : Int) : Int := n

/-- `enable_stats()` (lines 161-167). -/
def enable_stats (d : ConnectionDefaults) : ConnectionDefaults :=
  set_defaults statsd_params.host (pyIntOfInt statsd_params.port)
    (pyIntOfInt statsd_params.sample_rate) false d

/-- `disable_stats()` (lines 170-176). -/
def disable_stats (d : ConnectionDefaults) : ConnectionDefaults :=
  set_defaults statsd_params.host (pyIntOfInt statsd_params.port)
    (pyIntOfInt statsd_params.sample_rate) true d

/-- `init_stats()` (lines 158-159): it just invokes `enable_stats`. -/
def init_stats (d : ConnectionDefaults) : ConnectionDefaults :=
  enable_stats d

/-- The whole of the process-wide mutable state touched by
`instrument.py`: the shared connection defaults plus the handle cache
and event trace.  The switch functions touch only `defaults`; handles
carry no copy of the configuration. -/
structure GlobalState where
  defaults : ConnectionDefaults
  stats : StatsState
deriving DecidableEq, Repr

/-- Lift a switch operation to the whole process state: it rewrites the
shared defaults and nothing else. -/
def applyToDefaults (f : ConnectionDefaults → ConnectionDefaults) (g : GlobalState) :
    GlobalState :=
  { g with defaults := f g.defaults }

/- ## Event counting helpers -/

/-- Number of `Timer` handles constructed for a given resolved name in a
trace. -/
def countTimerCreates : List Ev → String → Nat
  | [], _ => 0
  | Ev.timerCreate n _ :: rest, nm => (if n = nm then 1 else 0) + countTimerCreates rest nm
  | _ :: rest, nm => countTimerCreates rest nm

/-- Number of `Counter` handles constructed for a given resolved name in
a trace. -/
def countCounterCreates : List Ev → String → Nat
  | [], _ => 0
  | Ev.counterCreate n _ :: rest, nm =>
      (if n = nm then 1 else 0) + countCounterCreates rest nm
  | _ :: rest, nm => countCounterCreates rest nm

/-- Number of increments recorded against a given counter handle in a
trace. -/
def countIncrs : List Ev → Nat → Nat
  | [], _ => 0
  | Ev.counterIncr h :: rest, hid => (if h = hid then 1 else 0) + countIncrs rest hid
  | _ :: rest, hid => countIncrs rest hid

/-- The pair of events one cache-hitting counter-wrapped call appends:
the increment, then entry into the wrapped callable — the increment
comes first. -/
def counterCallTrace (fn : FnDesc) (h : Nat) : List Ev :=
  [Ev.counterIncr h, Ev.invoke fn.fnId]

/- ## Concrete fixtures -/

/-- A module-level function of the repository, as the decorators see
it. -/
def fnEx : FnDesc :=
  { fnId := 0, im_class := none, module := "graph_explorer.backend", name := "load_metrics" }

/-- A distinct function object that happens to share `__module__` and
`__name__` with `fnEx` (e.g. a redefinition, or a same-named method of a
second class in the same module). -/
def fnEx2 : FnDesc :=
  { fnId := 1, im_class := none, module := "graph_explorer.backend", name := "load_metrics" }

/-- A base class `B` owning an instrumented method. -/
def clsBase : ClassDesc := { module := "graph_explorer.handlers", name := "BaseHandler" }

/-- The instrumented method `m`, declared on `clsBase` (so its
`__module__` is the module of `clsBase`). -/
def fnMeth : FnDesc :=
  { fnId := 2, im_class := none, module := "graph_explorer.handlers", name := "render" }

/-- A first subclass of `clsBase`. -/
def clsS1 : ClassDesc := { module := "graph_explorer.handlers", name := "JsonHandler" }

/-- A second subclass of `clsBase`. -/
def clsS2 : ClassDesc := { module := "graph_explorer.handlers", name := "HtmlHandler" }

/-- An instance of `clsS1`, passed as `self`. -/
def objS1 : PyObject := { objId := 10, cls := clsS1 }

/-- An instance of `clsS2`, passed as `self`. -/
def objS2 : PyObject := { objId := 11, cls := clsS2 }

/- ## String lemmas -/

/-- Splitting a list at a separator that occurs in neither right part is
unambiguous. -/
lemma dot_split_inj : ∀ (a c b d : List Char), ('.' : Char) ∉ b → ('.' : Char) ∉ d →
    a ++ '.' :: b = c ++ '.' :: d → a = c ∧ b = d := by
  intro a
  induction a with
  | nil =>
    intro c b d hb hd h
    cases c with
    | nil =>
      simp only [List.nil_append, List.cons.injEq] at h
      exact ⟨rfl, h.2⟩
    | cons x xs =>
      simp only [List.nil_append, List.cons_append, List.cons.injEq] at h
      exfalso
      apply hb
      rw [h.2]
      exact List.mem_append_right _ (List.mem_cons_self _ _)
  | cons x xs ih =>
    intro c b d hb hd h
    cases c with
    | nil =>
      simp only [List.nil_append, List.cons_append, List.cons.injEq] at h
      exfalso
      apply hd
      rw [← h.2]
      exact List.mem_append_right _ (List.mem_cons_self _ _)
    | cons y ys =>
      simp only [List.cons_append, List.cons.injEq] at h
      obtain ⟨h1, h2⟩ := ih ys b d hb hd h.2
      exact ⟨by rw [h.1, h1], h2⟩

/-- The string form of `dot_split_inj`, for names of the shape
`prefix ++ "." ++ last` with a dot-free last component. -/
lemma str_dot_inj (m1 n1 m2 n2 : String) (h1 : ('.' : Char) ∉ n1.data)
    (h2 : ('.' : Char) ∉ n2.data) (h : m1 ++ "." ++ n1 = m2 ++ "." ++ n2) :
    m1 = m2 ∧ n1 = n2 := by
  have hdot : ".".data = ['.'] := rfl
  have hd : m1.data ++ '.' :: n1.data = m2.data ++ '.' :: n2.data := by
    have h' := congrArg String.data h
    simpa [String.data_append, hdot] using h'
  obtain ⟨hm, hn⟩ := dot_split_inj m1.data m2.data n1.data n2.data h1 h2 hd
  exact ⟨String.ext hm, String.ext hn⟩

/-- String append is left-cancellative. -/
lemma str_append_left_cancel (s a b : String) (h : s ++ a = s ++ b) : a = b := by
  have h2 : s.data ++ a.data = s.data ++ b.data := by
    have h' := congrArg String.data h
    simpa [String.data_append] using h'
  exact String.ext (List.append_cancel_left h2)

/- ## Behaviour of the wrapper bodies -/

/-- A fault-free timer-wrapped call on a failing callable: the handle is
created, started, the callable entered — and `stop` is never reached. -/
lemma timerBody_err {E V : Type} (nm : String) (fid : Nat) (e : E) (s : StatsState) :
    timerBody noFaults nm fid (Except.error e : Except E V) s
      = (Except.error e,
         { counters := s.counters, nextHandleId := s.nextHandleId + 1,
           trace := s.trace ++ [Ev.timerCreate nm s.nextHandleId,
                                Ev.timerStart s.nextHandleId, Ev.invoke fid] }) := by
  simp [timerBody, noFaults, List.append_assoc]

/-- A fault-free timer-wrapped call on a succeeding callable: create,
start, invoke, stop. -/
lemma timerBody_ok {E V : Type} (nm : String) (fid : Nat) (v : V) (s : StatsState) :
    timerBody noFaults nm fid (Except.ok v : Except E V) s
      = (Except.ok v,
         { counters := s.counters, nextHandleId := s.nextHandleId + 1,
           trace := s.trace ++ [Ev.timerCreate nm s.nextHandleId,
                                Ev.timerStart s.nextHandleId, Ev.invoke fid,
                                Ev.timerStop s.nextHandleId] }) := by
  simp [timerBody, noFaults, List.append_assoc]

/-- A fault-free counter-wrapped call whose name is already cached:
the cached handle is incremented and the callable entered; the cache is
untouched. -/
lemma counterBody_hit {E V : Type} (nm : String) (fid : Nat) (o : Except E V)
    (s : StatsState) (h : Nat) (hl : List.lookup nm s.counters = some h) :
    counterBody noFaults nm fid o s
      = (o, { s with trace := s.trace ++ [Ev.counterIncr h, Ev.invoke fid] }) := by
  simp [counterBody, noFaults, hl, List.append_assoc]

/-- A fault-free counter-wrapped call whose name is not yet cached: a
handle is constructed, cached, incremented, and the callable entered. -/
lemma counterBody_miss {E V : Type} (nm : String) (fid : Nat) (o : Except E V)
    (s : StatsState) (hl : List.lookup nm s.counters = none) :
    counterBody noFaults nm fid o s
      = (o, { counters := (nm, s.nextHandleId) :: s.counters,
              nextHandleId := s.nextHandleId + 1,
              trace := s.trace ++ [Ev.counterCreate nm s.nextHandleId,
                                   Ev.counterIncr s.nextHandleId, Ev.invoke fid] }) := by
  simp [counterBody, noFaults, hl, List.append_assoc]

/-- A cached name stays cached with the same handle across a whole
fault-free run, and every call appends exactly its increment-then-invoke
pair. -/
lemma callSeq_counterBody_cached {E V : Type} (nm : String) (fid : Nat) (h : Nat)
    (outcomes : List (Except E V)) :
    ∀ s : StatsState, List.lookup nm s.counters = some h →
      callSeq (counterBody noFaults nm fid) outcomes s
        = (outcomes,
           { s with trace := s.trace
               ++ (List.replicate outcomes.length [Ev.counterIncr h, Ev.invoke fid]).flatten }) := by
  induction outcomes with
  | nil =>
    intro s hl
    simp [callSeq]
  | cons o rest ih =>
    intro s hl
    have ih' := ih ({ s with trace := s.trace ++ [Ev.counterIncr h, Ev.invoke fid] }) hl
    simp only [callSeq]
    rw [counterBody_hit nm fid o s h hl]
    simp [ih', List.replicate_succ, List.append_assoc]

/-- `countIncrs` distributes over append. -/
lemma countIncrs_append (l1 l2 : List Ev) (h : Nat) :
    countIncrs (l1 ++ l2) h = countIncrs l1 h + countIncrs l2 h := by
  induction l1 with
  | nil => simp [countIncrs]
  | cons x r ih => cases x <;> simp [countIncrs, ih] <;> omega

/-- The flattened replication of one call's increment-invoke pair holds
exactly one increment per call. -/
lemma countIncrs_replicate (k : Nat) (h fid : Nat) :
    countIncrs (List.replicate k [Ev.counterIncr h, Ev.invoke fid]).flatten h = k := by
  induction k with
  | zero => simp [countIncrs]
  | succ n ih =>
    simp [List.replicate_succ, countIncrs_append, countIncrs, ih]
    omega

/-- A whole fault-free run of a counter wrapper from interpreter start:
one handle (id 0) is created on the first call and cached; every call
appends its increment-then-invoke pair. -/
lemma callSeq_counterBody_init {E V : Type} (nm : String) (fid : Nat) (o : Except E V)
    (rest : List (Except E V)) :
    callSeq (counterBody noFaults nm fid) (o :: rest) initState
      = (o :: rest,
         { counters := [(nm, 0)], nextHandleId := 1,
           trace := Ev.counterCreate nm 0 ::
             (List.replicate (rest.length + 1) [Ev.counterIncr 0, Ev.invoke fid]).flatten }) := by
  have hmiss : List.lookup nm ({ counters := [], nextHandleId := 0, trace := [] } :
      StatsState).counters = none := rfl
  have hm := counterBody_miss nm fid o
      ({ counters := [], nextHandleId := 0, trace := [] } : StatsState) hmiss
  have hc := callSeq_counterBody_cached (E := E) (V := V) nm fid 0 rest
      { counters := [(nm, 0)], nextHandleId := 1,
        trace := [Ev.counterCreate nm 0, Ev.counterIncr 0, Ev.invoke fid] }
      (by simp [List.lookup])
  simp only [callSeq, initState]
  simp [hm, hc, List.replicate_succ, List.append_assoc]

/-- A fault-free timer-wrapped call always passes the wrapped callable's
outcome through. -/
lemma timerBody_fst {E V : Type} (nm : String) (fid : Nat) (o : Except E V) (s : StatsState) :
    (timerBody noFaults nm fid o s).1 = o := by
  cases o with
  | error e => simp [timerBody_err]
  | ok v => simp [timerBody_ok]

/-- A fault-free counter-wrapped call always passes the wrapped
callable's outcome through. -/
lemma counterBody_fst {E V : Type} (nm : String) (fid : Nat) (o : Except E V) (s : StatsState) :
    (counterBody noFaults nm fid o s).1 = o := by
  cases hl : List.lookup nm s.counters with
  | some h => simp [counterBody_hit nm fid o s h hl]
  | none => simp [counterBody_miss nm fid o s hl]

/-- A state with the counter handle for `fnEx` already cached. -/
def stHit : StatsState :=
  { counters := [(_func_package_and_name fnEx, 0)], nextHandleId := 1, trace := [] }

/- ## The claims -/

/-- C1 (counterexample): the claim is false for the timer decorators.
Calling a `timer`-wrapped callable twice constructs two `statsd.Timer`
handles for the same resolved name, because `timer` builds a fresh
handle on every call and consults no cache (the `_TIMERS` dict declared
at line 48 is never used). -/
theorem C1_timer_second_handle_cex :
    countTimerCreates
        ((timerCall noFaults fnEx (Except.ok 0 : Except Nat Nat)
            ((timerCall noFaults fnEx (Except.ok 0 : Except Nat Nat) initState).2)).2.trace)
        (_func_package_and_name fnEx) = 2 ∧
    ¬ countTimerCreates
        ((timerCall noFaults fnEx (Except.ok 0 : Except Nat Nat)
            ((timerCall noFaults fnEx (Except.ok 0 : Except Nat Nat) initState).2)).2.trace)
        (_func_package_and_name fnEx) ≤ 1 := by
  decide

/-- C1 (amended): counter-wrapped callables do get-or-create semantics —
a cache hit reuses the cached handle and leaves the cache untouched, a
miss creates the handle once and caches it, and two calls from
interpreter start share the single handle `0` with exactly one creation;
timer-wrapped callables instead construct a fresh handle on every
call. -/
theorem C1_counter_cached_timer_fresh :
    (∀ (E V : Type) (fn : FnDesc) (o : Except E V) (s : StatsState) (h : Nat),
      List.lookup (_func_package_and_name fn) s.counters = some h →
      counterCall noFaults fn o s
        = (o, { s with trace := s.trace ++ [Ev.counterIncr h, Ev.invoke fn.fnId] })) ∧
    (∀ (E V : Type) (fn : FnDesc) (o : Except E V) (s : StatsState),
      List.lookup (_func_package_and_name fn) s.counters = none →
      counterCall noFaults fn o s
        = (o, { counters := (_func_package_and_name fn, s.nextHandleId) :: s.counters,
                nextHandleId := s.nextHandleId + 1,
                trace := s.trace ++ [Ev.counterCreate (_func_package_and_name fn) s.nextHandleId,
                                     Ev.counterIncr s.nextHandleId, Ev.invoke fn.fnId] })) ∧
    (∀ (E V : Type) (fn : FnDesc) (o1 o2 : Except E V),
      (counterCall noFaults fn o2 ((counterCall noFaults fn o1 initState).2)).2.counters
          = [(_func_package_and_name fn, 0)] ∧
      countCounterCreates
          (counterCall noFaults fn o2 ((counterCall noFaults fn o1 initState).2)).2.trace
          (_func_package_and_name fn) = 1) ∧
    (∀ (E V : Type) (fn : FnDesc) (o : Except E V) (s : StatsState),
      countTimerCreates ((timerCall noFaults fn o s).2.trace) (_func_package_and_name fn)
        = countTimerCreates s.trace (_func_package_and_name fn) + 1) := by
  refine ⟨?_, ?_, ?_, ?_⟩
  · intro E V fn o s h hl
    exact counterBody_hit (_func_package_and_name fn) fn.fnId o s h hl
  · intro E V fn o s hl
    exact counterBody_miss (_func_package_and_name fn) fn.fnId o s hl
  · intro E V fn o1 o2
    have h1 := counterBody_miss (_func_package_and_name fn) fn.fnId o1
        ({ counters := [], nextHandleId := 0, trace := [] } : StatsState) rfl
    have h2 := counterBody_hit (_func_package_and_name fn) fn.fnId o2
        ({ counters := [(_func_package_and_name fn, 0)], nextHandleId := 1,
           trace := [Ev.counterCreate (_func_package_and_name fn) 0,
                     Ev.counterIncr 0, Ev.invoke fn.fnId] } : StatsState) 0
        (by simp [List.lookup])
    constructor
    · show (counterBody noFaults (_func_package_and_name fn) fn.fnId o2
          ((counterBody noFaults (_func_package_and_name fn) fn.fnId o1 initState).2)).2.counters
          = [(_func_package_and_name fn, 0)]
      simp only [initState]
      simp [h1, h2]
    · show countCounterCreates
          (counterBody noFaults (_func_package_and_name fn) fn.fnId o2
            ((counterBody noFaults (_func_package_and_name fn) fn.fnId o1 initState).2)).2.trace
          (_func_package_and_name fn) = 1
      simp only [initState]
      simp [h1, h2, countCounterCreates]
  · intro E V fn o s
    cases o with
    | error e =>
      show countTimerCreates
          ((timerBody noFaults (_func_package_and_name fn) fn.fnId (Except.error e) s).2.trace)
          (_func_package_and_name fn) = countTimerCreates s.trace (_func_package_and_name fn) + 1
      rw [timerBody_err]
      induction s.trace with
      | nil => simp [countTimerCreates]
      | cons x r ih =>
        cases x <;> simp [countTimerCreates, ih] <;> omega
    | ok v =>
      show countTimerCreates
          ((timerBody noFaults (_func_package_and_name fn) fn.fnId (Except.ok v) s).2.trace)
          (_func_package_and_name fn) = countTimerCreates s.trace (_func_package_and_name fn) + 1
      rw [timerBody_ok]
      induction s.trace with
      | nil => simp [countTimerCreates]
      | cons x r ih =>
        cases x <;> simp [countTimerCreates, ih] <;> omega

/-- Witness for `C1_counter_cached_timer_fresh`: the cache-hit and
cache-miss branches at concrete states. -/
theorem C1_counter_cached_timer_fresh_witness :
    (List.lookup (_func_package_and_name fnEx) stHit.counters = some 0 ∧
      counterCall noFaults fnEx (Except.ok 5 : Except Nat Nat) stHit
        = (Except.ok 5,
           { stHit with trace := stHit.trace ++ [Ev.counterIncr 0, Ev.invoke fnEx.fnId] })) ∧
    (List.lookup (_func_package_and_name fnEx) initState.counters = none ∧
      counterCall noFaults fnEx (Except.error 7 : Except Nat Nat) initState
        = (Except.error 7,
           { counters := [(_func_package_and_name fnEx, initState.nextHandleId)],
             nextHandleId := initState.nextHandleId + 1,
             trace := initState.trace
               ++ [Ev.counterCreate (_func_package_and_name fnEx) initState.nextHandleId,
                   Ev.counterIncr initState.nextHandleId, Ev.invoke fnEx.fnId] })) :=
  ⟨⟨by decide, C1_counter_cached_timer_fresh.1 Nat Nat fnEx (Except.ok 5) stHit 0 (by decide)⟩,
   ⟨by decide, C1_counter_cached_timer_fresh.2.1 Nat Nat fnEx (Except.error 7) initState (by decide)⟩⟩

/-- C2 (counterexample): the claim is false. When the wrapped callable
raises, the `timer` wrapper propagates the exception, but the started
timer (handle `0`, the only handle in this run) is never stopped: the
straight-line body has no `try`/`finally`, so `my_timer.stop()` — and
with it the duration report — is skipped. -/
theorem C2_stop_skipped_on_raise_cex :
    (timerCall noFaults fnEx (Except.error 3 : Except Nat Nat) initState).1 = Except.error 3 ∧
    Ev.timerStart 0 ∈ (timerCall noFaults fnEx (Except.error 3 : Except Nat Nat) initState).2.trace ∧
    Ev.timerStop 0 ∉ (timerCall noFaults fnEx (Except.error 3 : Except Nat Nat) initState).2.trace :=
  ⟨rfl, by decide, by decide⟩

/-- C2 (amended): if the wrapped callable raises, both timer-variant
wrappers propagate the exception unchanged and do NOT record the timer's
stop — no duration is reported for the failed call; the stop is recorded
only when the wrapped callable returns normally. -/
theorem C2_timer_stop_only_on_success :
    (∀ (E V : Type) (fn : FnDesc) (e : E) (s : StatsState),
      timerCall noFaults fn (Except.error e : Except E V) s
        = (Except.error e,
           { counters := s.counters, nextHandleId := s.nextHandleId + 1,
             trace := s.trace ++ [Ev.timerCreate (_func_package_and_name fn) s.nextHandleId,
                                  Ev.timerStart s.nextHandleId, Ev.invoke fn.fnId] })) ∧
    (∀ (E V : Type) (fn : FnDesc) (args : List PyObject) (e : E) (s : StatsState),
      timerForSubclassesCall noFaults fn args (Except.error e : Except E V) s
        = (Except.error e,
           { counters := s.counters, nextHandleId := s.nextHandleId + 1,
             trace := s.trace ++ [Ev.timerCreate (_func_package_class_name fn args) s.nextHandleId,
                                  Ev.timerStart s.nextHandleId, Ev.invoke fn.fnId] })) ∧
    (∀ (E V : Type) (fn : FnDesc) (e : E) (s : StatsState),
      Ev.timerStop s.nextHandleId ∉ s.trace →
      Ev.timerStop s.nextHandleId ∉ (timerCall noFaults fn (Except.error e : Except E V) s).2.trace) ∧
    (∀ (E V : Type) (fn : FnDesc) (v : V) (s : StatsState),
      timerCall noFaults fn (Except.ok v : Except E V) s
        = (Except.ok v,
           { counters := s.counters, nextHandleId := s.nextHandleId + 1,
             trace := s.trace ++ [Ev.timerCreate (_func_package_and_name fn) s.nextHandleId,
                                  Ev.timerStart s.nextHandleId, Ev.invoke fn.fnId,
                                  Ev.timerStop s.nextHandleId] })) := by
  refine ⟨?_, ?_, ?_, ?_⟩
  · intro E V fn e s
    exact timerBody_err (_func_package_and_name fn) fn.fnId e s
  · intro E V fn args e s
    exact timerBody_err (_func_package_class_name fn args) fn.fnId e s
  · intro E V fn e s hs
    show Ev.timerStop s.nextHandleId ∉
        (timerBody noFaults (_func_package_and_name fn) fn.fnId (Except.error e : Except E V) s).2.trace
    rw [timerBody_err]
    simp [List.mem_append, hs]
  · intro E V fn v s
    exact timerBody_ok (_func_package_and_name fn) fn.fnId v s

/-- Witness for `C2_timer_stop_only_on_success`: the no-stop-yet
hypothesis holds at interpreter start. -/
theorem C2_timer_stop_only_on_success_witness :
    Ev.timerStop initState.nextHandleId ∉ initState.trace ∧
    Ev.timerStop initState.nextHandleId ∉
      (timerCall noFaults fnEx (Except.error 3 : Except Nat Nat) initState).2.trace :=
  ⟨by decide, C2_timer_stop_only_on_success.2.2.1 Nat Nat fnEx 3 initState (by decide)⟩

/-- C3 (counterexample): the claim is false. With a transport that
raises on `my_timer.stop()`, a successful wrapped call's result
`Except.ok 7` is replaced by the transport's error, which propagates to
the wrapper's caller; and with a transport that raises on
`statsd.Timer(...)` construction, the error propagates and the wrapped
callable never executes (the trace stays empty — no `invoke`). -/
theorem C3_transport_fault_leaks_cex :
    (timerCall { noFaults with timerStopFault := some (5 : Nat) } fnEx
        (Except.ok 7 : Except Nat Nat) initState).1 = Except.error 5 ∧
    (timerCall { noFaults with timerCtorFault := some (5 : Nat) } fnEx
        (Except.ok 7 : Except Nat Nat) initState).1 = Except.error 5 ∧
    (timerCall { noFaults with timerCtorFault := some (5 : Nat) } fnEx
        (Except.ok 7 : Except Nat Nat) initState).2.trace = [] :=
  ⟨rfl, rfl, rfl⟩

/-- C3 (amended): the wrappers install no guard around transport
operations.  When the transport does not fail, the wrapped callable's
outcome is passed through unchanged (all four wrappers).  A failure in
`statsd.Timer(...)` construction or in `start()` propagates to the
wrapper's caller and occurs before the wrapped callable, preventing its
execution (the state gains no `invoke` event); a failure in `stop()`
after a successful call replaces the callable's result; a failure in the
counter's increment on first use leaves the freshly created handle
cached, propagates, and prevents the wrapped callable's execution. -/
theorem C3_transport_faults_propagate :
    (∀ (E V : Type) (fn : FnDesc) (args : List PyObject) (o : Except E V) (s : StatsState),
      (timerCall noFaults fn o s).1 = o ∧
      (timerForSubclassesCall noFaults fn args o s).1 = o ∧
      (counterCall noFaults fn o s).1 = o ∧
      (counterForSubclassesCall noFaults fn args o s).1 = o) ∧
    (∀ (E V : Type) (fn : FnDesc) (e : E) (o : Except E V) (s : StatsState),
      timerCall { noFaults with timerCtorFault := some e } fn o s = (Except.error e, s)) ∧
    (∀ (E V : Type) (fn : FnDesc) (e : E) (o : Except E V) (s : StatsState),
      timerCall { noFaults with timerStartFault := some e } fn o s
        = (Except.error e,
           { counters := s.counters, nextHandleId := s.nextHandleId + 1,
             trace := s.trace
               ++ [Ev.timerCreate (_func_package_and_name fn) s.nextHandleId] })) ∧
    (∀ (E V : Type) (fn : FnDesc) (e : E) (v : V) (s : StatsState),
      (timerCall { noFaults with timerStopFault := some e } fn (Except.ok v) s).1
          = Except.error e ∧
      Ev.invoke fn.fnId
        ∈ (timerCall { noFaults with timerStopFault := some e } fn (Except.ok v) s).2.trace) ∧
    (∀ (E V : Type) (fn : FnDesc) (e : E) (o : Except E V) (s : StatsState),
      List.lookup (_func_package_and_name fn) s.counters = none →
      counterCall { noFaults with counterIncrFault := some e } fn o s
        = (Except.error e,
           { counters := (_func_package_and_name fn, s.nextHandleId) :: s.counters,
             nextHandleId := s.nextHandleId + 1,
             trace := s.trace
               ++ [Ev.counterCreate (_func_package_and_name fn) s.nextHandleId] })) := by
  refine ⟨?_, ?_, ?_, ?_, ?_⟩
  · intro E V fn args o s
    exact ⟨timerBody_fst _ fn.fnId o s, timerBody_fst _ fn.fnId o s,
           counterBody_fst _ fn.fnId o s, counterBody_fst _ fn.fnId o s⟩
  · intro E V fn e o s
    rfl
  · intro E V fn e o s
    rfl
  · intro E V fn e v s
    constructor
    · rfl
    · show Ev.invoke fn.fnId ∈
          (timerBody { noFaults with timerStopFault := some e }
            (_func_package_and_name fn) fn.fnId (Except.ok v) s).2.trace
      simp [timerBody, noFaults, List.mem_append]
  · intro E V fn e o s hl
    show counterBody { noFaults with counterIncrFault := some e }
          (_func_package_and_name fn) fn.fnId o s
        = (Except.error e,
           { counters := (_func_package_and_name fn, s.nextHandleId) :: s.counters,
             nextHandleId := s.nextHandleId + 1,
             trace := s.trace
               ++ [Ev.counterCreate (_func_package_and_name fn) s.nextHandleId] })
    simp [counterBody, noFaults, hl]

/-- Witness for `C3_transport_faults_propagate`: the counter's
increment-fault branch at interpreter start. -/
theorem C3_transport_faults_propagate_witness :
    List.lookup (_func_package_and_name fnEx) initState.counters = none ∧
    counterCall { noFaults with counterIncrFault := some (9 : Nat) } fnEx
        (Except.ok 1 : Except Nat Nat) initState
      = (Except.error 9,
         { counters := [(_func_package_and_name fnEx, initState.nextHandleId)],
           nextHandleId := initState.nextHandleId + 1,
           trace := initState.trace
             ++ [Ev.counterCreate (_func_package_and_name fnEx) initState.nextHandleId] }) :=
  ⟨by decide,
   C3_transport_faults_propagate.2.2.2.2 Nat Nat fnEx 9 (Except.ok 1) initState (by decide)⟩

/-- C4 (confirmed): a counter-wrapped callable invoked `K` times from
interpreter start (with arbitrary per-call outcomes, in particular all
failures) records exactly `K` increments on the single handle `0`
created for its resolved name, returns every call's outcome unchanged,
and its trace is exactly one handle creation followed by `K` copies of
`counterCallTrace` — each copy placing the increment strictly before the
entry into the wrapped callable.  The same holds for
`counter_for_subclasses` under its resolved name. -/
theorem C4_counter_exactly_K (E V : Type) (fn : FnDesc) (args : List PyObject)
    (o : Except E V) (rest : List (Except E V)) :
    (callSeq (counterCall noFaults fn) (o :: rest) initState).1 = o :: rest ∧
    (callSeq (counterCall noFaults fn) (o :: rest) initState).2.trace
      = Ev.counterCreate (_func_package_and_name fn) 0 ::
          (List.replicate (o :: rest).length (counterCallTrace fn 0)).flatten ∧
    countIncrs (callSeq (counterCall noFaults fn) (o :: rest) initState).2.trace 0
      = (o :: rest).length ∧
    (callSeq (counterForSubclassesCall noFaults fn args) (o :: rest) initState).1 = o :: rest ∧
    (callSeq (counterForSubclassesCall noFaults fn args) (o :: rest) initState).2.trace
      = Ev.counterCreate (_func_package_class_name fn args) 0 ::
          (List.replicate (o :: rest).length (counterCallTrace fn 0)).flatten ∧
    countIncrs (callSeq (counterForSubclassesCall noFaults fn args) (o :: rest) initState).2.trace 0
      = (o :: rest).length := by
  have h1 := callSeq_counterBody_init (E := E) (V := V) (_func_package_and_name fn) fn.fnId o rest
  have h2 := callSeq_counterBody_init (E := E) (V := V) (_func_package_class_name fn args)
      fn.fnId o rest
  refine ⟨?_, ?_, ?_, ?_, ?_, ?_⟩
  · show (callSeq (counterBody noFaults (_func_package_and_name fn) fn.fnId)
        (o :: rest) initState).1 = o :: rest
    rw [h1]
  · show (callSeq (counterBody noFaults (_func_package_and_name fn) fn.fnId)
        (o :: rest) initState).2.trace
      = Ev.counterCreate (_func_package_and_name fn) 0 ::
          (List.replicate (o :: rest).length (counterCallTrace fn 0)).flatten
    rw [h1]
    simp [counterCallTrace]
  · show countIncrs (callSeq (counterBody noFaults (_func_package_and_name fn) fn.fnId)
        (o :: rest) initState).2.trace 0 = (o :: rest).length
    rw [h1]
    simp [countIncrs, countIncrs_replicate]
    omega
  · show (callSeq (counterBody noFaults (_func_package_class_name fn args) fn.fnId)
        (o :: rest) initState).1 = o :: rest
    rw [h2]
  · show (callSeq (counterBody noFaults (_func_package_class_name fn args) fn.fnId)
        (o :: rest) initState).2.trace
      = Ev.counterCreate (_func_package_class_name fn args) 0 ::
          (List.replicate (o :: rest).length (counterCallTrace fn 0)).flatten
    rw [h2]
    simp [counterCallTrace]
  · show countIncrs (callSeq (counterBody noFaults (_func_package_class_name fn args) fn.fnId)
        (o :: rest) initState).2.trace 0 = (o :: rest).length
    rw [h2]
    simp [countIncrs, countIncrs_replicate]
    omega

/-- The character data of a subclass-aware resolved name, split around
the owning class's name. -/
lemma class_name_data (fn : FnDesc) (a : PyObject) (rest : List PyObject) :
    (_func_package_class_name fn (a :: rest)).data
      = (APP_NAME ++ "." ++ a.cls.module ++ ".").data ++ a.cls.name.data
          ++ ("." ++ fn.name).data := by
  simp [_func_package_class_name, String.data_append, List.append_assoc]

/-- Two subclass-aware names built over the same callable agree exactly
when the owning classes agree, provided class and callable names are
dot-free. -/
lemma class_name_inj (fn : FnDesc) (c1 c2 : ClassDesc)
    (h1 : ('.' : Char) ∉ c1.name.data) (h2 : ('.' : Char) ∉ c2.name.data)
    (hf : ('.' : Char) ∉ fn.name.data)
    (h : APP_NAME ++ "." ++ c1.module ++ "." ++ c1.name ++ "." ++ fn.name
       = APP_NAME ++ "." ++ c2.module ++ "." ++ c2.name ++ "." ++ fn.name) : c1 = c2 := by
  have step1 := str_dot_inj (APP_NAME ++ "." ++ c1.module ++ "." ++ c1.name) fn.name
      (APP_NAME ++ "." ++ c2.module ++ "." ++ c2.name) fn.name hf hf h
  have step2 := str_dot_inj (APP_NAME ++ "." ++ c1.module) c1.name
      (APP_NAME ++ "." ++ c2.module) c2.name h1 h2 step1.1
  have hm := str_append_left_cancel (APP_NAME ++ ".") c1.module c2.module step2.1
  cases c1 with
  | mk m1 n1 =>
    cases c2 with
    | mk m2 n2 =>
      simp only [ClassDesc.mk.injEq]
      exact ⟨hm, step2.2⟩

/-- Unfolding of the plain-mode resolver on a non-instancemethod. -/
lemma plain_of_none (f : FnDesc) (h : f.im_class = none) :
    _func_package_and_name f = APP_NAME ++ "." ++ f.module ++ "." ++ f.name := by
  simp [_func_package_and_name, h]

/-- C5 (counterexample): the final conjunct of the claim is false.  With
base class `BaseHandler` (declared in module `graph_explorer.handlers`)
owning the instrumented method `render`, a resolution with no positional
argument yields `graph-explorer.graph_explorer.handlers.render`, built
from the callable's module and name — it does not contain the base
class's name `BaseHandler` at all. -/
theorem C5_fallback_without_base_name_cex :
    _func_package_class_name fnMeth [] = "graph-explorer.graph_explorer.handlers.render" ∧
    ¬ List.IsInfix clsBase.name.data (_func_package_class_name fnMeth []).data := by
  refine ⟨by decide, by decide⟩

/-- C5 (amended): with a positional argument present the name is derived
from the runtime class of that argument — app_name, the class's module
and name, then the callable's name, so the owning class's name occurs in
the resolved name, and distinct (dot-free-named) classes give distinct
names; with no positional argument the resolver falls back to a
plain-mode name built from the callable's declared module and its own
name (which need not mention the base class). -/
theorem C5_subclass_runtime_naming :
    (∀ (fn : FnDesc) (a : PyObject) (rest : List PyObject),
      _func_package_class_name fn (a :: rest)
        = app_name ++ "." ++ a.cls.module ++ "." ++ a.cls.name ++ "." ++ fn.name ∧
      List.IsInfix a.cls.name.data (_func_package_class_name fn (a :: rest)).data) ∧
    (∀ (fn : FnDesc) (a b : PyObject) (r1 r2 : List PyObject),
      ('.' : Char) ∉ a.cls.name.data → ('.' : Char) ∉ b.cls.name.data →
      ('.' : Char) ∉ fn.name.data → a.cls ≠ b.cls →
      _func_package_class_name fn (a :: r1) ≠ _func_package_class_name fn (b :: r2)) ∧
    (∀ fn : FnDesc,
      _func_package_class_name fn [] = app_name ++ "." ++ fn.module ++ "." ++ fn.name) := by
  refine ⟨?_, ?_, ?_⟩
  · intro fn a rest
    refine ⟨rfl, ?_⟩
    exact ⟨(APP_NAME ++ "." ++ a.cls.module ++ ".").data, ("." ++ fn.name).data,
      (class_name_data fn a rest).symm⟩
  · intro fn a b r1 r2 h1 h2 hf hne heq
    exact hne (class_name_inj fn a.cls b.cls h1 h2 hf heq)
  · intro fn
    rfl

/-- Witness for `C5_subclass_runtime_naming`: calls through the two
subclasses `JsonHandler` and `HtmlHandler` resolve to distinct names. -/
theorem C5_subclass_runtime_naming_witness :
    (('.' : Char) ∉ objS1.cls.name.data ∧ ('.' : Char) ∉ objS2.cls.name.data ∧
      ('.' : Char) ∉ fnMeth.name.data ∧ objS1.cls ≠ objS2.cls) ∧
    _func_package_class_name fnMeth [objS1] ≠ _func_package_class_name fnMeth [objS2] :=
  ⟨⟨by decide, by decide, by decide, by decide⟩,
   C5_subclass_runtime_naming.2.1 fnMeth objS1 objS2 [] []
     (by decide) (by decide) (by decide) (by decide)⟩

/-- C6 (confirmed): both resolvers are total functions of their inputs —
every Python operation they perform (`len(args)`, indexing after the
length check, the `__class__`/`__module__`/`__name__` attribute chain on
objects and the `__module__`/`__name__` attributes of the decorated
function, string formatting) is defined for every callable and argument
shape the decorators can pass, so the embedding returns a name for every
input, and that name is either the full hierarchical form or the
fallback form; no path raises. -/
theorem C6_resolver_never_throws (fn : FnDesc) (args : List PyObject) :
    ((∃ a rest, args = a :: rest ∧ _func_package_class_name fn args = fullHierName a fn) ∨
      (args = [] ∧ _func_package_class_name fn args = fallbackName fn)) ∧
    ((∃ c, fn.im_class = some c ∧
        _func_package_and_name fn = app_name ++ "." ++ pyClassStr c ++ "." ++ fn.name) ∨
      (fn.im_class = none ∧ _func_package_and_name fn = fallbackName fn)) := by
  constructor
  · cases args with
    | nil => exact Or.inr ⟨rfl, rfl⟩
    | cons a rest => exact Or.inl ⟨a, rest, rfl, rfl⟩
  · cases hic : fn.im_class with
    | none =>
      refine Or.inr ⟨rfl, ?_⟩
      simp [plain_of_none fn hic, fallbackName, APP_NAME]
    | some c =>
      refine Or.inl ⟨c, rfl, ?_⟩
      simp [_func_package_and_name, hic, APP_NAME]

/-- C7 (confirmed): the plain-mode resolver computes exactly the
spec-side name `{app_name}.{enclosing_scope}.{callable_name}` — module
path for a free function, owning type's qualified name for a bound
method — and it takes no call-argument input at all, so the name cannot
depend on call arguments: the name a `timer`-wrapped call registers is
the same for every outcome and state. -/
theorem C7_plain_name_refines_spec (fn : FnDesc) :
    _func_package_and_name fn = spec_plain_name fn ∧
    (∀ (E V : Type) (o : Except E V) (s : StatsState),
      Ev.timerCreate (spec_plain_name fn) s.nextHandleId
        ∈ (timerCall noFaults fn o s).2.trace) := by
  have heq : _func_package_and_name fn = spec_plain_name fn := by
    cases hic : fn.im_class with
    | none =>
      simp [_func_package_and_name, spec_plain_name, enclosingScope, hic, APP_NAME]
    | some c =>
      simp [_func_package_and_name, spec_plain_name, enclosingScope, qualifiedName,
        pyClassStr, hic, APP_NAME]
  refine ⟨heq, ?_⟩
  intro E V o s
  cases o with
  | error e =>
    show Ev.timerCreate (spec_plain_name fn) s.nextHandleId ∈
        (timerBody noFaults (_func_package_and_name fn) fn.fnId
          (Except.error e : Except E V) s).2.trace
    rw [timerBody_err]
    simp [heq]
  | ok v =>
    show Ev.timerCreate (spec_plain_name fn) s.nextHandleId ∈
        (timerBody noFaults (_func_package_and_name fn) fn.fnId
          (Except.ok v : Except E V) s).2.trace
    rw [timerBody_ok]
    simp [heq]

/-- C8 (counterexample): the claim is false.  `fnEx` and `fnEx2` are two
distinct callables (distinct function objects) that share `__module__`
and `__name__`, and the resolver maps them to the same metric name —
their metrics are conflated. -/
theorem C8_distinct_callables_conflated_cex :
    fnEx ≠ fnEx2 ∧ _func_package_and_name fnEx = _func_package_and_name fnEx2 :=
  ⟨by decide, rfl⟩

/-- C8 (amended): repeated resolution is stable — the resolved name
depends only on the callable's naming attributes (`im_class`,
`__module__`, `__name__`), so the same callable always gets the same
name; and names distinguish exactly those attributes: for
non-instancemethods with dot-free `__name__`, two resolved names agree
iff module and name agree (so callables differing in either get distinct
names, while distinct callable objects sharing both are conflated), and
likewise the subclass-aware name over a fixed callable distinguishes
exactly the owning class. -/
theorem C8_names_distinguish_attributes_only :
    (∀ f1 f2 : FnDesc, f1.im_class = f2.im_class → f1.module = f2.module →
      f1.name = f2.name → _func_package_and_name f1 = _func_package_and_name f2) ∧
    (∀ f1 f2 : FnDesc, f1.im_class = none → f2.im_class = none →
      ('.' : Char) ∉ f1.name.data → ('.' : Char) ∉ f2.name.data →
      (_func_package_and_name f1 = _func_package_and_name f2 ↔
        (f1.module = f2.module ∧ f1.name = f2.name))) ∧
    (∀ (fn : FnDesc) (a b : PyObject) (r1 r2 : List PyObject),
      ('.' : Char) ∉ a.cls.name.data → ('.' : Char) ∉ b.cls.name.data →
      ('.' : Char) ∉ fn.name.data →
      (_func_package_class_name fn (a :: r1) = _func_package_class_name fn (b :: r2) ↔
        a.cls = b.cls)) := by
  refine ⟨?_, ?_, ?_⟩
  · intro f1 f2 h1 h2 h3
    simp [_func_package_and_name, h1, h2, h3]
  · intro f1 f2 e1 e2 h1 h2
    rw [plain_of_none f1 e1, plain_of_none f2 e2]
    constructor
    · intro h
      have step1 := str_dot_inj (APP_NAME ++ "." ++ f1.module) f1.name
          (APP_NAME ++ "." ++ f2.module) f2.name h1 h2 h
      exact ⟨str_append_left_cancel (APP_NAME ++ ".") f1.module f2.module step1.1, step1.2⟩
    · intro h
      rw [h.1, h.2]
  · intro fn a b r1 r2 h1 h2 hf
    constructor
    · intro h
      exact class_name_inj fn a.cls b.cls h1 h2 hf h
    · intro h
      simp [_func_package_class_name, h]

/-- Witness for `C8_names_distinguish_attributes_only`: stability on the
attribute-sharing pair, the plain-mode iff on two concrete free
functions, and the subclass-aware iff on the two subclass instances. -/
theorem C8_names_distinguish_attributes_only_witness :
    (fnEx.im_class = fnEx2.im_class ∧ fnEx.module = fnEx2.module ∧ fnEx.name = fnEx2.name ∧
      _func_package_and_name fnEx = _func_package_and_name fnEx2) ∧
    (fnEx.im_class = none ∧ fnMeth.im_class = none ∧
      ('.' : Char) ∉ fnEx.name.data ∧ ('.' : Char) ∉ fnMeth.name.data ∧
      (_func_package_and_name fnEx = _func_package_and_name fnMeth ↔
        (fnEx.module = fnMeth.module ∧ fnEx.name = fnMeth.name))) ∧
    (('.' : Char) ∉ objS1.cls.name.data ∧ ('.' : Char) ∉ objS2.cls.name.data ∧
      ('.' : Char) ∉ fnMeth.name.data ∧
      (_func_package_class_name fnMeth [objS1] = _func_package_class_name fnMeth [objS2] ↔
        objS1.cls = objS2.cls)) :=
  ⟨⟨by decide, by decide, by decide,
    C8_names_distinguish_attributes_only.1 fnEx fnEx2 (by decide) (by decide) (by decide)⟩,
   ⟨by decide, by decide, by decide, by decide,
    C8_names_distinguish_attributes_only.2.1 fnEx fnMeth rfl rfl (by decide) (by decide)⟩,
   ⟨by decide, by decide, by decide,
    C8_names_distinguish_attributes_only.2.2 fnMeth objS1 objS2 [] []
      (by decide) (by decide) (by decide)⟩⟩

/-- C9 (confirmed): `init_stats` is exactly `enable_stats`; each switch
operation writes the configured host, port and sample_rate unchanged
(Python's `int()` on the int-valued configuration entries is the
identity) together with its disabled flag; each wholesale-overwrites the
shared defaults, so calls are repeat-safe and order-independent with the
latest call winning regardless of prior state; and the operations touch
only the shared connection defaults — the handle cache and trace carry
no configuration, so the new defaults govern handles created both before
and after the call. -/
theorem C9_switch_repeat_safe_latest_wins :
    (∀ d : ConnectionDefaults, init_stats d = enable_stats d) ∧
    (∀ d : ConnectionDefaults,
      enable_stats d = { host := statsd_params.host, port := statsd_params.port,
                         sample_rate := statsd_params.sample_rate, disabled := false } ∧
      disable_stats d = { host := statsd_params.host, port := statsd_params.port,
                          sample_rate := statsd_params.sample_rate, disabled := true }) ∧
    (∀ d1 d2 : ConnectionDefaults,
      enable_stats d1 = enable_stats d2 ∧ disable_stats d1 = disable_stats d2 ∧
      init_stats d1 = init_stats d2) ∧
    (∀ g : GlobalState,
      (applyToDefaults enable_stats g).stats = g.stats ∧
      (applyToDefaults disable_stats g).stats = g.stats ∧
      (applyToDefaults init_stats g).stats = g.stats) := by
  refine ⟨?_, ?_, ?_, ?_⟩
  · intro d
    rfl
  · intro d
    exact ⟨rfl, rfl⟩
  · intro d1 d2
    exact ⟨rfl, rfl, rfl⟩
  · intro g
    exact ⟨rfl, rfl, rfl⟩

/-- C10 (confirmed): the thread-aware name is exactly the plain-mode
name with the current thread's name appended as a final dotted
component; consequently calls on threads with distinct names yield
distinct metric names sharing the plain-mode (callable-name) prefix, so
N distinctly-named threads produce N distinct names. -/
theorem C10_thread_name_appended (fn : FnDesc) :
    (∀ t : String,
      _func_package_and_name_thread fn t = _func_package_and_name fn ++ "." ++ t) ∧
    (∀ t1 t2 : String, t1 ≠ t2 →
      _func_package_and_name_thread fn t1 ≠ _func_package_and_name_thread fn t2) := by
  have h : ∀ t : String,
      _func_package_and_name_thread fn t = _func_package_and_name fn ++ "." ++ t := by
    intro t
    cases hic : fn.im_class with
    | none => simp [_func_package_and_name_thread, _func_package_and_name, hic]
    | some c => simp [_func_package_and_name_thread, _func_package_and_name, hic]
  refine ⟨h, ?_⟩
  intro t1 t2 hne heq
  rw [h t1, h t2] at heq
  exact hne (str_append_left_cancel (_func_package_and_name fn ++ ".") t1 t2 heq)

/-- Witness for `C10_thread_name_appended`: two default-named Python
threads give two distinct metric names for the same callable. -/
theorem C10_thread_name_appended_witness :
    "Thread-1" ≠ "Thread-2" ∧
    _func_package_and_name_thread fnEx "Thread-1"
      ≠ _func_package_and_name_thread fnEx "Thread-2" :=
  ⟨by decide, (C10_thread_name_appended fnEx).2 "Thread-1" "Thread-2" (by decide)⟩
